import Mathlib

/-!
# go-sqlite-sessions: the session-manager facade

A shallow embedding of `src/go-sqlite-sessions.go`.  The package keeps two
package-level variables (`options`, `sessionsStore`) and forwards every
operation to the external store library (`sqlitestore` on top of
`gorilla/sessions`).  The library is not part of the package, so it is a
parameter of the embedding (`StoreLib`); every call the facade makes to it is
recorded, with its arguments, in a call trace kept in the state.

Conventions
* a Go pointer is an `Option` (`none` is `nil`), a Go `error` is an
  `Option Err` (`none` is `nil`);
* Go `int`, `http.SameSite` and `time.Duration` are `Int` (the package does no
  arithmetic on them apart from the constant `time.Minute * 5`);
* `[]byte` is a list of byte values; a write through a shared slice is the
  separate step `callerWritesSecretKey`;
* calls into the library are assumed to return.
-/

namespace Gosqlitesessions

/-! ## Data model -/

/-- The package's `Options` struct (source lines 12-23), fields in source order.
`SecretKey` holds the bytes the slice currently shows; a Go slice shares its
bytes with every copy of its header, which `callerWritesSecretKey` accounts
for. -/
structure Options where
  SameSite : Int
  Domain : String
  Path : String
  HttpOnly : Bool
  Secure : Bool
  MaxAge : Int
  SessionCookieName : String
  SqliteDatabaseFilename : String
  SecretKey : List Nat
  CleanupInterval : Int
deriving DecidableEq, Repr

/-- The fields of gorilla's `sessions.Options` that the composite literal in
`createSqliteStore` (source lines 53-60) fills, in the literal's order. -/
structure SessionsOptions where
  Path : String
  MaxAge : Int
  Domain : String
  Secure : Bool
  HttpOnly : Bool
  SameSite : Int
deriving DecidableEq, Repr

/-- Go's zero value of `Options`: the value of the package variable `options`
before any assignment, and of every field a composite literal leaves out. -/
def Options.zero : Options :=
  { SameSite := 0, Domain := "", Path := "", HttpOnly := false, Secure := false,
    MaxAge := 0, SessionCookieName := "", SqliteDatabaseFilename := "",
    SecretKey := [], CleanupInterval := 0 }

/-- Go's conversion `[]byte(s)`: the UTF-8 bytes of the string. -/
def bytesOf (s : String) : List Nat :=
  s.toList.flatMap fun c => (String.utf8EncodeChar c).map UInt8.toNat

/-- Go's `time.Minute`, in nanoseconds (`time.Duration` counts nanoseconds). -/
def Minute : Int := 60 * 1000000000

section Facade

variable {W Store Session Request Writer Callback Err : Type}

/-- The external store library as the facade uses it.  `W` is everything the
library can read or change (database, timers, the response being written);
a method of `*SqliteStore` takes its receiver as a possibly-nil pointer. -/
structure StoreLib (W Store Session Request Writer Callback Err : Type) where
  NewSqliteStore : W → String → String → SessionsOptions → List Nat →
    (Option Store × Option Err) × W
  StartCleanup : W → Option Store → String → Int → W
  Get : W → Option Store → Request → String → (Option Session × Option Err) × W
  Delete : W → Option Store → Request → Writer → Option Session → W
  DeleteFromDatabaseSessionWithID : W → Option Store → String → Option Err × W
  SetExpiredSessionPreDeleteCallback : W → Option Store → Callback → W

/-- One entry of the call trace: a call the facade made to a collaborator, with
the arguments it passed (and, for the constructor, what it returned). -/
inductive Event (Store Session Request Writer Callback Err : Type) where
  | NewSqliteStore (filename tableName : String) (o : SessionsOptions) (key : List Nat)
      (result : Option Store × Option Err)
  | LogPrintln (err : Err)
  | StartCleanup (recv : Option Store) (name : String) (interval : Int)
  | Get (recv : Option Store) (request : Request) (name : String)
  | Delete (recv : Option Store) (request : Request) (resWriter : Writer)
      (session : Option Session)
  | DeleteFromDatabaseSessionWithID (recv : Option Store) (sessionID : String)
  | SetExpiredSessionPreDeleteCallback (recv : Option Store) (callback : Callback)
deriving DecidableEq

/-- The package state: the two package variables (source lines 25-28), the
state of the outside world, and the trace of calls made so far. -/
structure State (W Store Session Request Writer Callback Err : Type) where
  options : Options
  sessionsStore : Option Store
  world : W
  trace : List (Event Store Session Request Writer Callback Err)

/-- The state of a fresh process: both package variables hold their zero value. -/
def State.fresh (w : W) : State W Store Session Request Writer Callback Err :=
  { options := Options.zero, sessionsStore := none, world := w, trace := [] }

/-- The composite literal of source lines 53-60. -/
def sessionsOptionsOf (o : Options) : SessionsOptions :=
  { Path := o.Path, MaxAge := o.MaxAge, Domain := o.Domain, Secure := o.Secure,
    HttpOnly := o.HttpOnly, SameSite := o.SameSite }

/-! ## Operations -/

/-- Source lines 52-70. -/
def createSqliteStore (lib : StoreLib W Store Session Request Writer Callback Err)
    (s : State W Store Session Request Writer Callback Err) :
    State W Store Session Request Writer Callback Err :=
  let sessionsOptions := sessionsOptionsOf s.options
  let r := lib.NewSqliteStore s.world s.options.SqliteDatabaseFilename "sessions"
    sessionsOptions s.options.SecretKey
  let s1 : State W Store Session Request Writer Callback Err :=
    { s with
      sessionsStore := r.1.1
      world := r.2
      trace := s.trace ++ [Event.NewSqliteStore s.options.SqliteDatabaseFilename "sessions"
        sessionsOptions s.options.SecretKey r.1] }
  let s2 : State W Store Session Request Writer Callback Err :=
    match r.1.2 with
    | some err => { s1 with trace := s1.trace ++ [Event.LogPrintln err] }
    | none => s1
  { s2 with
    world := lib.StartCleanup s2.world s2.sessionsStore s2.options.SessionCookieName
      s2.options.CleanupInterval
    trace := s2.trace ++ [Event.StartCleanup s2.sessionsStore s2.options.SessionCookieName
      s2.options.CleanupInterval] }

/-- Source lines 30-43. -/
def InitializeSessionsManager (lib : StoreLib W Store Session Request Writer Callback Err)
    (s : State W Store Session Request Writer Callback Err) :
    State W Store Session Request Writer Callback Err :=
  createSqliteStore lib
    { s with
      options :=
        { s.options with
          Path := "/"
          HttpOnly := true
          Secure := false
          MaxAge := 3600
          SessionCookieName := "session-id"
          SqliteDatabaseFilename := "./sessions.sqlite"
          SecretKey := bytesOf "super-secret-key"
          CleanupInterval := Minute * 5 } }

/-- Source lines 45-50. -/
def InitializeSessionsManagerWithOptions
    (lib : StoreLib W Store Session Request Writer Callback Err) (opt : Options)
    (s : State W Store Session Request Writer Callback Err) :
    State W Store Session Request Writer Callback Err :=
  createSqliteStore lib { s with options := opt }

/-- Source lines 72-79.  Returns the pair `(session, error)` and the new state. -/
def GetSession (lib : StoreLib W Store Session Request Writer Callback Err)
    (_resWriter : Writer) (request : Request)
    (s : State W Store Session Request Writer Callback Err) :
    (Option Session × Option Err) × State W Store Session Request Writer Callback Err :=
  let r := lib.Get s.world s.sessionsStore request s.options.SessionCookieName
  let s1 : State W Store Session Request Writer Callback Err :=
    { s with
      world := r.2
      trace := s.trace ++ [Event.Get s.sessionsStore request s.options.SessionCookieName] }
  match r.1.2 with
  | some err => ((none, some err), s1)
  | none => ((r.1.1, none), s1)

/-- Source lines 81-83. -/
def DeleteSession (lib : StoreLib W Store Session Request Writer Callback Err)
    (resWriter : Writer) (request : Request) (session : Option Session)
    (s : State W Store Session Request Writer Callback Err) :
    State W Store Session Request Writer Callback Err :=
  { s with
    world := lib.Delete s.world s.sessionsStore request resWriter session
    trace := s.trace ++ [Event.Delete s.sessionsStore request resWriter session] }

/-- Source lines 85-87.  Returns the error and the new state. -/
def DeleteFromDatabaseSessionWithID
    (lib : StoreLib W Store Session Request Writer Callback Err) (sessionID : String)
    (s : State W Store Session Request Writer Callback Err) :
    Option Err × State W Store Session Request Writer Callback Err :=
  let r := lib.DeleteFromDatabaseSessionWithID s.world s.sessionsStore sessionID
  (r.1, { s with
          world := r.2
          trace := s.trace ++ [Event.DeleteFromDatabaseSessionWithID s.sessionsStore sessionID] })

/-- Source lines 89-91. -/
def SetExpiredSessionPreDeleteCallback
    (lib : StoreLib W Store Session Request Writer Callback Err) (callback : Callback)
    (s : State W Store Session Request Writer Callback Err) :
    State W Store Session Request Writer Callback Err :=
  { s with
    world := lib.SetExpiredSessionPreDeleteCallback s.world s.sessionsStore callback
    trace := s.trace ++ [Event.SetExpiredSessionPreDeleteCallback s.sessionsStore callback] }

end Facade

/-! ## Reading the call trace -/

section Trace

variable {W Store Session Request Writer Callback Err : Type}

/-- What `createSqliteStore` logs for the constructor's error result (source
lines 64-66): one `log.Println` when the error is non-nil, nothing otherwise. -/
def logOf (e : Option Err) : List (Event Store Session Request Writer Callback Err) :=
  match e with
  | some err => [Event.LogPrintln err]
  | none => []

/-- Recognises a call of the store constructor. -/
def Event.isNewSqliteStore : Event Store Session Request Writer Callback Err → Bool
  | Event.NewSqliteStore _ _ _ _ _ => true
  | _ => false

/-- Recognises a call of `StartCleanup`. -/
def Event.isStartCleanup : Event Store Session Request Writer Callback Err → Bool
  | Event.StartCleanup _ _ _ => true
  | _ => false

/-- Recognises a call of the store's `Get`. -/
def Event.isGet : Event Store Session Request Writer Callback Err → Bool
  | Event.Get _ _ _ => true
  | _ => false

/-- Recognises a call of the store's delete-by-ID. -/
def Event.isDeleteFromDatabaseSessionWithID :
    Event Store Session Request Writer Callback Err → Bool
  | Event.DeleteFromDatabaseSessionWithID _ _ => true
  | _ => false

/-- The arguments and the result of one constructor call. -/
structure CtorCall (Store Err : Type) where
  filename : String
  tableName : String
  o : SessionsOptions
  key : List Nat
  result : Option Store × Option Err
deriving DecidableEq

/-- The constructor call an event records, if it is one. -/
def Event.ctorCall? : Event Store Session Request Writer Callback Err →
    Option (CtorCall Store Err)
  | Event.NewSqliteStore f t o k r => some ⟨f, t, o, k, r⟩
  | _ => none

/-- The most recent constructor call in a trace (the trace is oldest first). -/
def lastCtor : List (Event Store Session Request Writer Callback Err) →
    Option (CtorCall Store Err)
  | [] => none
  | e :: es =>
    match lastCtor es with
    | some c => some c
    | none => e.ctorCall?

end Trace

/-! ## Sequences of facade calls -/

section Runs

variable {W Store Session Request Writer Callback Err : Type}

/-- A call of one of the six exported functions, with its arguments. -/
inductive Op (Session Request Writer Callback : Type) where
  | InitializeSessionsManager
  | InitializeSessionsManagerWithOptions (opt : Options)
  | GetSession (resWriter : Writer) (request : Request)
  | DeleteSession (resWriter : Writer) (request : Request) (session : Option Session)
  | DeleteFromDatabaseSessionWithID (sessionID : String)
  | SetExpiredSessionPreDeleteCallback (callback : Callback)

/-- The state after one exported call (return values dropped). -/
def step (lib : StoreLib W Store Session Request Writer Callback Err)
    (s : State W Store Session Request Writer Callback Err)
    (op : Op Session Request Writer Callback) :
    State W Store Session Request Writer Callback Err :=
  match op with
  | Op.InitializeSessionsManager => InitializeSessionsManager lib s
  | Op.InitializeSessionsManagerWithOptions opt => InitializeSessionsManagerWithOptions lib opt s
  | Op.GetSession w r => (GetSession lib w r s).2
  | Op.DeleteSession w r sess => DeleteSession lib w r sess s
  | Op.DeleteFromDatabaseSessionWithID sessionID =>
    (DeleteFromDatabaseSessionWithID lib sessionID s).2
  | Op.SetExpiredSessionPreDeleteCallback cb => SetExpiredSessionPreDeleteCallback lib cb s

/-- The state after a sequence of exported calls, oldest first. -/
def run (lib : StoreLib W Store Session Request Writer Callback Err)
    (ops : List (Op Session Request Writer Callback))
    (s : State W Store Session Request Writer Callback Err) :
    State W Store Session Request Writer Callback Err :=
  ops.foldl (step lib) s

/-- The store handle is the one built from the current configuration: the most
recent constructor call in the trace, if any, was made by the library on the
arguments `createSqliteStore` derives from the current `options`, and
`sessionsStore` is the handle that call returned; with no constructor call
yet, `sessionsStore` is still nil. -/
def StoreBuiltFromOptions (lib : StoreLib W Store Session Request Writer Callback Err)
    (s : State W Store Session Request Writer Callback Err) : Prop :=
  match lastCtor s.trace with
  | none => s.sessionsStore = none
  | some c =>
    c.filename = s.options.SqliteDatabaseFilename ∧ c.tableName = "sessions" ∧
    c.o = sessionsOptionsOf s.options ∧ c.key = s.options.SecretKey ∧
    s.sessionsStore = c.result.1 ∧
    ∃ w, c.result = (lib.NewSqliteStore w s.options.SqliteDatabaseFilename "sessions"
      (sessionsOptionsOf s.options) s.options.SecretKey).1

/-- Going from `s` to `t` constructed a new store from the configuration `t`
holds: the library's constructor ran on the world of `s` with the arguments
`createSqliteStore` derives from `t.options`, that call is the only
constructor call added to the trace and the most recent one, `t.sessionsStore`
is the handle it returned, and, when it returned a nil error, the world of `t`
is the constructor's world after one `StartCleanup` on that handle with the
configured cookie name and interval. -/
def BuildsStoreFrom (lib : StoreLib W Store Session Request Writer Callback Err)
    (s t : State W Store Session Request Writer Callback Err) : Prop :=
  t.sessionsStore =
    (lib.NewSqliteStore s.world t.options.SqliteDatabaseFilename "sessions"
      (sessionsOptionsOf t.options) t.options.SecretKey).1.1 ∧
  lastCtor t.trace =
    some ⟨t.options.SqliteDatabaseFilename, "sessions", sessionsOptionsOf t.options,
      t.options.SecretKey,
      (lib.NewSqliteStore s.world t.options.SqliteDatabaseFilename "sessions"
        (sessionsOptionsOf t.options) t.options.SecretKey).1⟩ ∧
  (t.trace.drop s.trace.length).countP Event.isNewSqliteStore = 1 ∧
  ((lib.NewSqliteStore s.world t.options.SqliteDatabaseFilename "sessions"
      (sessionsOptionsOf t.options) t.options.SecretKey).1.2 = none →
    t.world =
      lib.StartCleanup
        (lib.NewSqliteStore s.world t.options.SqliteDatabaseFilename "sessions"
          (sessionsOptionsOf t.options) t.options.SecretKey).2
        (lib.NewSqliteStore s.world t.options.SqliteDatabaseFilename "sessions"
          (sessionsOptionsOf t.options) t.options.SecretKey).1.1
        t.options.SessionCookieName t.options.CleanupInterval)

/-- A write `key[i] = b` made by the caller of
`InitializeSessionsManagerWithOptions` through the slice it passed as
`opt.SecretKey`.  Source line 46 (`options = opt`) copies the slice header and
not the bytes, so the write is a write to `options.SecretKey[i]`; the store
handle, the world and the trace are as before.  (An index outside the slice
makes Go panic in the caller; here it changes nothing.) -/
def callerWritesSecretKey (i b : Nat)
    (s : State W Store Session Request Writer Callback Err) :
    State W Store Session Request Writer Callback Err :=
  { s with options := { s.options with SecretKey := s.options.SecretKey.set i (b % 256) } }

end Runs

/-! ## A concrete store library for evaluating the facade -/

/-- A small outside world: the database paths that can be opened and the
session IDs currently stored. -/
structure DemoWorld where
  openable : List String
  rows : List String
deriving DecidableEq, Repr

/-- A session as the demo library hands it out: its ID and gorilla's `IsNew` flag. -/
structure DemoSession where
  ID : String
  IsNew : Bool
deriving DecidableEq, Repr

/-- A request, reduced to the value of its session cookie (if it carries one). -/
abbrev DemoRequest := Option String

/-- A concrete library with gorilla's observable conventions: the constructor
fails on a path that cannot be opened; `Get` returns a new session with a nil
error when the request has no cookie, the stored session when the cookie names
a stored ID, and a new session together with a decode error otherwise;
delete-by-ID reports an unknown ID as an error. -/
def demoLib : StoreLib DemoWorld String DemoSession DemoRequest Unit Unit String :=
  { NewSqliteStore := fun w filename _ _ _ =>
      if filename ∈ w.openable then ((some filename, none), w)
      else ((none, some "unable to open database file"), w)
    StartCleanup := fun w _ _ _ => w
    Get := fun w _ request _ =>
      match request with
      | none => ((some ⟨"", true⟩, none), w)
      | some v =>
        if v ∈ w.rows then ((some ⟨v, false⟩, none), w)
        else ((some ⟨"", true⟩, some "securecookie: the value is not valid"), w)
    Delete := fun w _ _ _ _ => w
    DeleteFromDatabaseSessionWithID := fun w _ sessionID =>
      if sessionID ∈ w.rows then (none, { w with rows := w.rows.erase sessionID })
      else (some "session not found", w)
    SetExpiredSessionPreDeleteCallback := fun w _ _ => w }

/-- A world in which the default database path can be opened and one session,
`"abc"`, is stored. -/
def demoWorld : DemoWorld :=
  { openable := ["./sessions.sqlite"], rows := ["abc"] }

/-- The fresh-process state over `demoWorld`. -/
def demoFresh : State DemoWorld String DemoSession DemoRequest Unit Unit String :=
  State.fresh demoWorld

/-- The state after the default initialisation in a fresh process. -/
def demoReady : State DemoWorld String DemoSession DemoRequest Unit Unit String :=
  InitializeSessionsManager demoLib demoFresh

/-- An `Options` literal that sets only `SecretKey`. -/
def optOnlySecretKey : Options :=
  { Options.zero with SecretKey := bytesOf "0123456789abcdef0123456789abcdef" }

/-- An `Options` value with an empty key, a negative max-age and a zero
cleanup interval, on a database path that can be opened. -/
def optUnvalidated : Options :=
  { Options.zero with
    Path := "/"
    HttpOnly := true
    MaxAge := -1
    SessionCookieName := "session-id"
    SqliteDatabaseFilename := "./sessions.sqlite"
    SecretKey := []
    CleanupInterval := 0 }

/-- The documented defaults, on a database path that cannot be opened. -/
def optUnopenable : Options :=
  { Options.zero with
    Path := "/"
    HttpOnly := true
    MaxAge := 3600
    SessionCookieName := "session-id"
    SqliteDatabaseFilename := "/nonexistent/sessions.sqlite"
    SecretKey := bytesOf "super-secret-key"
    CleanupInterval := Minute * 5 }

/-- A configuration that sets `Domain` and `SameSite` (3 is
`http.SameSiteStrictMode`). -/
def optWithDomain : Options :=
  { Options.zero with
    SameSite := 3
    Domain := "example.com"
    Path := "/app"
    HttpOnly := true
    Secure := true
    MaxAge := 60
    SessionCookieName := "sid"
    SqliteDatabaseFilename := "./sessions.sqlite"
    SecretKey := bytesOf "0123456789abcdef0123456789abcdef"
    CleanupInterval := Minute }

/-- The state after `InitializeSessionsManagerWithOptions(optWithDomain)` in a
fresh process. -/
def demoConfigured : State DemoWorld String DemoSession DemoRequest Unit Unit String :=
  InitializeSessionsManagerWithOptions demoLib optWithDomain demoFresh

/-- A call as the recording library notes it. -/
inductive DemoCall where
  | opened (filename tableName : String) (o : SessionsOptions) (key : List Nat)
  | cleanup (recv : Option String) (name : String) (interval : Int)
deriving DecidableEq, Repr

/-- A library whose world is the list of constructor and cleanup calls it has
received, oldest first, each with the arguments it was given; its constructor
always succeeds and returns the filename as the handle. -/
def recordingLib : StoreLib (List DemoCall) String DemoSession DemoRequest Unit Unit String :=
  { NewSqliteStore := fun w filename tableName o key =>
      ((some filename, none), w ++ [DemoCall.opened filename tableName o key])
    StartCleanup := fun w recv name interval => w ++ [DemoCall.cleanup recv name interval]
    Get := fun w _ _ _ => ((some ⟨"", true⟩, none), w)
    Delete := fun w _ _ _ _ => w
    DeleteFromDatabaseSessionWithID := fun w _ _ => (none, w)
    SetExpiredSessionPreDeleteCallback := fun w _ _ => w }

/-- The fresh-process state over the recording library: no call received yet. -/
def recordingFresh : State (List DemoCall) String DemoSession DemoRequest Unit Unit String :=
  State.fresh []

/-! ## Helper lemmas -/

section Lemmas

variable {W Store Session Request Writer Callback Err : Type}

theorem bytesOf_default_key : bytesOf "super-secret-key" =
    [115, 117, 112, 101, 114, 45, 115, 101, 99, 114, 101, 116, 45, 107, 101, 121] := by
  decide

theorem Minute_mul_five : Minute * 5 = 300000000000 := by
  decide

theorem createSqliteStore_trace (lib : StoreLib W Store Session Request Writer Callback Err)
    (s : State W Store Session Request Writer Callback Err) :
    (createSqliteStore lib s).trace =
      s.trace ++
        [Event.NewSqliteStore s.options.SqliteDatabaseFilename "sessions"
          (sessionsOptionsOf s.options) s.options.SecretKey
          (lib.NewSqliteStore s.world s.options.SqliteDatabaseFilename "sessions"
            (sessionsOptionsOf s.options) s.options.SecretKey).1] ++
        logOf (lib.NewSqliteStore s.world s.options.SqliteDatabaseFilename "sessions"
            (sessionsOptionsOf s.options) s.options.SecretKey).1.2 ++
        [Event.StartCleanup
          (lib.NewSqliteStore s.world s.options.SqliteDatabaseFilename "sessions"
            (sessionsOptionsOf s.options) s.options.SecretKey).1.1
          s.options.SessionCookieName s.options.CleanupInterval] := by
  unfold createSqliteStore
  cases h : (lib.NewSqliteStore s.world s.options.SqliteDatabaseFilename "sessions"
            (sessionsOptionsOf s.options) s.options.SecretKey).1.2 <;>
    simp [h, logOf]

theorem createSqliteStore_options (lib : StoreLib W Store Session Request Writer Callback Err)
    (s : State W Store Session Request Writer Callback Err) :
    (createSqliteStore lib s).options = s.options := by
  unfold createSqliteStore
  cases h : (lib.NewSqliteStore s.world s.options.SqliteDatabaseFilename "sessions"
            (sessionsOptionsOf s.options) s.options.SecretKey).1.2 <;>
    simp [h]

theorem createSqliteStore_sessionsStore
    (lib : StoreLib W Store Session Request Writer Callback Err)
    (s : State W Store Session Request Writer Callback Err) :
    (createSqliteStore lib s).sessionsStore =
      (lib.NewSqliteStore s.world s.options.SqliteDatabaseFilename "sessions"
        (sessionsOptionsOf s.options) s.options.SecretKey).1.1 := by
  unfold createSqliteStore
  cases h : (lib.NewSqliteStore s.world s.options.SqliteDatabaseFilename "sessions"
            (sessionsOptionsOf s.options) s.options.SecretKey).1.2 <;>
    simp [h]

theorem createSqliteStore_world (lib : StoreLib W Store Session Request Writer Callback Err)
    (s : State W Store Session Request Writer Callback Err) :
    (createSqliteStore lib s).world =
      lib.StartCleanup
        (lib.NewSqliteStore s.world s.options.SqliteDatabaseFilename "sessions"
          (sessionsOptionsOf s.options) s.options.SecretKey).2
        (lib.NewSqliteStore s.world s.options.SqliteDatabaseFilename "sessions"
          (sessionsOptionsOf s.options) s.options.SecretKey).1.1
        s.options.SessionCookieName s.options.CleanupInterval := by
  unfold createSqliteStore
  cases h : (lib.NewSqliteStore s.world s.options.SqliteDatabaseFilename "sessions"
            (sessionsOptionsOf s.options) s.options.SecretKey).1.2 <;>
    simp [h]

theorem createSqliteStore_new_ctor_count
    (lib : StoreLib W Store Session Request Writer Callback Err)
    (s : State W Store Session Request Writer Callback Err) :
    ((createSqliteStore lib s).trace.drop s.trace.length).countP Event.isNewSqliteStore
      = 1 := by
  rw [createSqliteStore_trace, List.append_assoc, List.append_assoc, List.drop_left]
  cases (lib.NewSqliteStore s.world s.options.SqliteDatabaseFilename "sessions"
    (sessionsOptionsOf s.options) s.options.SecretKey).1.2 <;>
    simp [logOf, Event.isNewSqliteStore, List.countP_cons]

theorem lastCtor_append (xs ys : List (Event Store Session Request Writer Callback Err)) :
    lastCtor (xs ++ ys) = (lastCtor ys).orElse fun _ => lastCtor xs := by
  induction xs with
  | nil => cases h : lastCtor ys <;> simp [lastCtor, Option.orElse, h]
  | cons x xs ih =>
    simp only [List.cons_append, lastCtor, List.append_eq]
    rw [ih]
    cases h : lastCtor ys <;> simp [Option.orElse]

theorem lastCtor_createSqliteStore
    (lib : StoreLib W Store Session Request Writer Callback Err)
    (s : State W Store Session Request Writer Callback Err) :
    lastCtor (createSqliteStore lib s).trace =
      some ⟨s.options.SqliteDatabaseFilename, "sessions", sessionsOptionsOf s.options,
        s.options.SecretKey,
        (lib.NewSqliteStore s.world s.options.SqliteDatabaseFilename "sessions"
          (sessionsOptionsOf s.options) s.options.SecretKey).1⟩ := by
  rw [createSqliteStore_trace, List.append_assoc, List.append_assoc, lastCtor_append]
  cases h : (lib.NewSqliteStore s.world s.options.SqliteDatabaseFilename "sessions"
            (sessionsOptionsOf s.options) s.options.SecretKey).1.2 <;>
    simp [logOf, lastCtor, Event.ctorCall?, Option.orElse]

theorem storeBuiltFromOptions_createSqliteStore
    (lib : StoreLib W Store Session Request Writer Callback Err)
    (s : State W Store Session Request Writer Callback Err) :
    StoreBuiltFromOptions lib (createSqliteStore lib s) := by
  unfold StoreBuiltFromOptions
  rw [lastCtor_createSqliteStore]
  simp only [createSqliteStore_options, createSqliteStore_sessionsStore, true_and]
  exact ⟨s.world, rfl⟩

theorem buildsStoreFrom_createSqliteStore
    (lib : StoreLib W Store Session Request Writer Callback Err)
    (s : State W Store Session Request Writer Callback Err) :
    BuildsStoreFrom lib s (createSqliteStore lib s) := by
  refine ⟨?_, ?_, createSqliteStore_new_ctor_count lib s, fun _ => ?_⟩
  · rw [createSqliteStore_sessionsStore, createSqliteStore_options]
  · rw [lastCtor_createSqliteStore, createSqliteStore_options]
  · rw [createSqliteStore_world, createSqliteStore_options]

theorem storeBuiltFromOptions_frame
    (lib : StoreLib W Store Session Request Writer Callback Err)
    (s t : State W Store Session Request Writer Callback Err)
    (e : Event Store Session Request Writer Callback Err)
    (he : e.ctorCall? = none) (ht : t.trace = s.trace ++ [e])
    (ho : t.options = s.options) (hs : t.sessionsStore = s.sessionsStore)
    (h : StoreBuiltFromOptions lib s) : StoreBuiltFromOptions lib t := by
  unfold StoreBuiltFromOptions at h ⊢
  have hl : lastCtor t.trace = lastCtor s.trace := by
    rw [ht, lastCtor_append]
    simp [lastCtor, he, Option.orElse]
  rw [hl, ho, hs]
  exact h

theorem GetSession_state (lib : StoreLib W Store Session Request Writer Callback Err)
    (resWriter : Writer) (request : Request)
    (s : State W Store Session Request Writer Callback Err) :
    (GetSession lib resWriter request s).2 =
      { s with
        world := (lib.Get s.world s.sessionsStore request s.options.SessionCookieName).2
        trace := s.trace ++
          [Event.Get s.sessionsStore request s.options.SessionCookieName] } := by
  unfold GetSession
  cases h : (lib.Get s.world s.sessionsStore request s.options.SessionCookieName).1.2 <;>
    simp [h]

theorem GetSession_result (lib : StoreLib W Store Session Request Writer Callback Err)
    (resWriter : Writer) (request : Request)
    (s : State W Store Session Request Writer Callback Err) :
    (GetSession lib resWriter request s).1 =
      match (lib.Get s.world s.sessionsStore request s.options.SessionCookieName).1.2 with
      | some err => (none, some err)
      | none =>
        ((lib.Get s.world s.sessionsStore request s.options.SessionCookieName).1.1, none) := by
  unfold GetSession
  cases h : (lib.Get s.world s.sessionsStore request s.options.SessionCookieName).1.2 <;>
    simp [h]

theorem step_storeBuiltFromOptions
    (lib : StoreLib W Store Session Request Writer Callback Err)
    (s : State W Store Session Request Writer Callback Err)
    (op : Op Session Request Writer Callback)
    (h : StoreBuiltFromOptions lib s) : StoreBuiltFromOptions lib (step lib s op) := by
  cases op with
  | InitializeSessionsManager => exact storeBuiltFromOptions_createSqliteStore lib _
  | InitializeSessionsManagerWithOptions opt =>
    exact storeBuiltFromOptions_createSqliteStore lib _
  | GetSession w r =>
    refine storeBuiltFromOptions_frame lib s _
      (Event.Get s.sessionsStore r s.options.SessionCookieName) rfl ?_ ?_ ?_ h <;>
      simp [step, GetSession_state]
  | DeleteSession w r sess =>
    exact storeBuiltFromOptions_frame lib s _
      (Event.Delete s.sessionsStore r w sess) rfl rfl rfl rfl h
  | DeleteFromDatabaseSessionWithID sessionID =>
    exact storeBuiltFromOptions_frame lib s _
      (Event.DeleteFromDatabaseSessionWithID s.sessionsStore sessionID) rfl rfl rfl rfl h
  | SetExpiredSessionPreDeleteCallback cb =>
    exact storeBuiltFromOptions_frame lib s _
      (Event.SetExpiredSessionPreDeleteCallback s.sessionsStore cb) rfl rfl rfl rfl h

theorem run_storeBuiltFromOptions
    (lib : StoreLib W Store Session Request Writer Callback Err)
    (ops : List (Op Session Request Writer Callback))
    (s : State W Store Session Request Writer Callback Err)
    (h : StoreBuiltFromOptions lib s) : StoreBuiltFromOptions lib (run lib ops s) := by
  induction ops generalizing s with
  | nil => exact h
  | cons op ops ih => exact ih _ (step_storeBuiltFromOptions lib s op h)

end Lemmas

/-! ## The claims -/

section Claims

variable {W Store Session Request Writer Callback Err : Type}

/-- C1, as the code has it: `GetSession` hands back a usable session with a nil
error exactly when the store's `Get` did so; whenever the store's `Get` reports
an error (also when it comes with a fresh session) `GetSession` returns a nil
session and that same error. -/
theorem GetSession_usable_iff_store_ok
    (lib : StoreLib W Store Session Request Writer Callback Err)
    (resWriter : Writer) (request : Request)
    (s : State W Store Session Request Writer Callback Err) :
    (∀ sess : Session,
      (GetSession lib resWriter request s).1 = (some sess, none) ↔
        (lib.Get s.world s.sessionsStore request s.options.SessionCookieName).1 =
          (some sess, none)) ∧
    (∀ (fresh : Option Session) (e : Err),
      (lib.Get s.world s.sessionsStore request s.options.SessionCookieName).1 =
          (fresh, some e) →
        (GetSession lib resWriter request s).1 = (none, some e)) := by
  rw [GetSession_result]
  rcases h : (lib.Get s.world s.sessionsStore request s.options.SessionCookieName).1 with
    ⟨a, e⟩
  cases e <;> simp

/-- C1, refuted as stated: on a request whose cookie does not decode, the store
returns a fresh session together with an error, and `GetSession` returns a nil
session and that error instead of a usable session with a nil error. -/
theorem GetSession_tampered_cookie_returns_error :
    (demoLib.Get demoReady.world demoReady.sessionsStore (some "abd")
        demoReady.options.SessionCookieName).1 =
      (some ⟨"", true⟩, some "securecookie: the value is not valid") ∧
    (GetSession demoLib () (some "abd") demoReady).1 =
      (none, some "securecookie: the value is not valid") := by
  decide

/-- C2, as the code has it: `InitializeSessionsManagerWithOptions` installs
`opt` unchanged as the configuration, so every option left at its zero value
stays at its zero value. -/
theorem InitializeSessionsManagerWithOptions_options
    (lib : StoreLib W Store Session Request Writer Callback Err) (opt : Options)
    (s : State W Store Session Request Writer Callback Err) :
    (InitializeSessionsManagerWithOptions lib opt s).options = opt := by
  unfold InitializeSessionsManagerWithOptions
  rw [createSqliteStore_options]

/-- C2, refuted as stated: with an `opt` that sets only `SecretKey`, the
configuration used has an empty cookie name, an empty path, `HttpOnly` false,
`MaxAge` 0 and a zero cleanup interval, and the cleanup is started with them. -/
theorem InitializeSessionsManagerWithOptions_no_defaults :
    (InitializeSessionsManagerWithOptions demoLib optOnlySecretKey demoFresh).options.SessionCookieName
      = "" ∧
    (InitializeSessionsManagerWithOptions demoLib optOnlySecretKey demoFresh).options.Path = "" ∧
    (InitializeSessionsManagerWithOptions demoLib optOnlySecretKey demoFresh).options.HttpOnly
      = false ∧
    (InitializeSessionsManagerWithOptions demoLib optOnlySecretKey demoFresh).options.MaxAge = 0 ∧
    (InitializeSessionsManagerWithOptions demoLib optOnlySecretKey demoFresh).options.CleanupInterval
      = 0 ∧
    Event.StartCleanup none "" 0 ∈
      (InitializeSessionsManagerWithOptions demoLib optOnlySecretKey demoFresh).trace := by
  decide

/-- C3, the code after a configuration that set `Domain` and `SameSite`:
`InitializeSessionsManager` leaves the eight listed values in the
configuration, but the store is not constructed from these values alone: the
constructor the library receives also carries Domain "example.com" and
SameSite 3 of the earlier configuration.  The world of the recording library
lists the calls it received. -/
theorem InitializeSessionsManager_constructs_store_with_stale_Domain :
    (InitializeSessionsManager recordingLib
        (InitializeSessionsManagerWithOptions recordingLib optWithDomain
          recordingFresh)).options =
      { SameSite := 3, Domain := "example.com", Path := "/", HttpOnly := true,
        Secure := false, MaxAge := 3600, SessionCookieName := "session-id",
        SqliteDatabaseFilename := "./sessions.sqlite",
        SecretKey := [115, 117, 112, 101, 114, 45, 115, 101, 99, 114, 101, 116, 45, 107,
          101, 121],
        CleanupInterval := 300000000000 } ∧
    (InitializeSessionsManager recordingLib
        (InitializeSessionsManagerWithOptions recordingLib optWithDomain
          recordingFresh)).world =
      [DemoCall.opened "./sessions.sqlite" "sessions"
          { Path := "/app", MaxAge := 60, Domain := "example.com", Secure := true,
            HttpOnly := true, SameSite := 3 }
          (bytesOf "0123456789abcdef0123456789abcdef"),
        DemoCall.cleanup (some "./sessions.sqlite") "sid" 60000000000,
        DemoCall.opened "./sessions.sqlite" "sessions"
          { Path := "/", MaxAge := 3600, Domain := "example.com", Secure := false,
            HttpOnly := true, SameSite := 3 }
          (bytesOf "super-secret-key"),
        DemoCall.cleanup (some "./sessions.sqlite") "session-id" 300000000000] ∧
    (InitializeSessionsManager recordingLib recordingFresh).world =
      [DemoCall.opened "./sessions.sqlite" "sessions"
          { Path := "/", MaxAge := 3600, Domain := "", Secure := false,
            HttpOnly := true, SameSite := 0 }
          (bytesOf "super-secret-key"),
        DemoCall.cleanup (some "./sessions.sqlite") "session-id" 300000000000] := by
  decide

/-- C4, the code at a database path that cannot be opened: the constructor
returns a nil handle and an error, the error is logged, and `StartCleanup` is
still invoked, on the nil handle. -/
theorem createSqliteStore_starts_cleanup_after_failed_open :
    (InitializeSessionsManagerWithOptions demoLib optUnopenable demoFresh).trace =
      [Event.NewSqliteStore "/nonexistent/sessions.sqlite" "sessions"
          { Path := "/", MaxAge := 3600, Domain := "", Secure := false, HttpOnly := true,
            SameSite := 0 }
          (bytesOf "super-secret-key") (none, some "unable to open database file"),
        Event.LogPrintln "unable to open database file",
        Event.StartCleanup none "session-id" 300000000000] ∧
    (InitializeSessionsManagerWithOptions demoLib optUnopenable demoFresh).sessionsStore
      = none := by
  decide

/-- C5: `createSqliteStore` calls the constructor once, on the world it was
entered in, with the configured filename, the table name "sessions", the
configured key and a `sessions.Options` whose six fields are the configured
ones, keeps the returned handle, and then calls `StartCleanup` once with the
configured cookie name and interval; the configuration itself is unchanged,
and the world it leaves is the constructor's world after that one
`StartCleanup` on the returned handle. -/
theorem createSqliteStore_forwards_configuration
    (lib : StoreLib W Store Session Request Writer Callback Err)
    (s : State W Store Session Request Writer Callback Err) :
    (createSqliteStore lib s).trace =
      s.trace ++
        [Event.NewSqliteStore s.options.SqliteDatabaseFilename "sessions"
          { Path := s.options.Path, MaxAge := s.options.MaxAge, Domain := s.options.Domain,
            Secure := s.options.Secure, HttpOnly := s.options.HttpOnly,
            SameSite := s.options.SameSite }
          s.options.SecretKey
          (lib.NewSqliteStore s.world s.options.SqliteDatabaseFilename "sessions"
            { Path := s.options.Path, MaxAge := s.options.MaxAge, Domain := s.options.Domain,
              Secure := s.options.Secure, HttpOnly := s.options.HttpOnly,
              SameSite := s.options.SameSite }
            s.options.SecretKey).1] ++
        logOf (lib.NewSqliteStore s.world s.options.SqliteDatabaseFilename "sessions"
            { Path := s.options.Path, MaxAge := s.options.MaxAge, Domain := s.options.Domain,
              Secure := s.options.Secure, HttpOnly := s.options.HttpOnly,
              SameSite := s.options.SameSite }
            s.options.SecretKey).1.2 ++
        [Event.StartCleanup (createSqliteStore lib s).sessionsStore
          s.options.SessionCookieName s.options.CleanupInterval] ∧
    (createSqliteStore lib s).sessionsStore =
      (lib.NewSqliteStore s.world s.options.SqliteDatabaseFilename "sessions"
        { Path := s.options.Path, MaxAge := s.options.MaxAge, Domain := s.options.Domain,
          Secure := s.options.Secure, HttpOnly := s.options.HttpOnly,
          SameSite := s.options.SameSite }
        s.options.SecretKey).1.1 ∧
    ((createSqliteStore lib s).trace.drop s.trace.length).countP Event.isNewSqliteStore = 1 ∧
    ((createSqliteStore lib s).trace.drop s.trace.length).countP Event.isStartCleanup = 1 ∧
    (createSqliteStore lib s).options = s.options ∧
    (createSqliteStore lib s).world =
      lib.StartCleanup
        (lib.NewSqliteStore s.world s.options.SqliteDatabaseFilename "sessions"
          { Path := s.options.Path, MaxAge := s.options.MaxAge, Domain := s.options.Domain,
            Secure := s.options.Secure, HttpOnly := s.options.HttpOnly,
            SameSite := s.options.SameSite }
          s.options.SecretKey).2
        (lib.NewSqliteStore s.world s.options.SqliteDatabaseFilename "sessions"
          { Path := s.options.Path, MaxAge := s.options.MaxAge, Domain := s.options.Domain,
            Secure := s.options.Secure, HttpOnly := s.options.HttpOnly,
            SameSite := s.options.SameSite }
          s.options.SecretKey).1.1
        s.options.SessionCookieName s.options.CleanupInterval := by
  refine ⟨?_, ?_, ?_, ?_, ?_, createSqliteStore_world lib s⟩
  · rw [createSqliteStore_trace, createSqliteStore_sessionsStore]
    rfl
  · rw [createSqliteStore_sessionsStore]
    rfl
  · rw [createSqliteStore_trace, List.append_assoc, List.append_assoc,
      List.drop_left]
    cases (lib.NewSqliteStore s.world s.options.SqliteDatabaseFilename "sessions"
      (sessionsOptionsOf s.options) s.options.SecretKey).1.2 <;>
      simp [logOf, Event.isNewSqliteStore, List.countP_cons]
  · rw [createSqliteStore_trace, List.append_assoc, List.append_assoc,
      List.drop_left]
    cases (lib.NewSqliteStore s.world s.options.SqliteDatabaseFilename "sessions"
      (sessionsOptionsOf s.options) s.options.SecretKey).1.2 <;>
      simp [logOf, Event.isStartCleanup, List.countP_cons]
  · exact createSqliteStore_options lib s

/-- C6, as the code has it: initialisation checks nothing.  For every `Options`
value, whatever its key, max-age and cleanup interval, the value is installed
unchanged and the constructor is called once, on the current world, with the
given values; the handle is whatever that call returns.  When the call returns
a nil error, the cleanup is started once, on that handle, with the given
cookie name and interval, and the world left is the constructor's world after
that `StartCleanup`. -/
theorem InitializeSessionsManagerWithOptions_no_validation
    (lib : StoreLib W Store Session Request Writer Callback Err) (opt : Options)
    (s : State W Store Session Request Writer Callback Err) :
    (InitializeSessionsManagerWithOptions lib opt s).options = opt ∧
    (InitializeSessionsManagerWithOptions lib opt s).sessionsStore =
      (lib.NewSqliteStore s.world opt.SqliteDatabaseFilename "sessions"
        (sessionsOptionsOf opt) opt.SecretKey).1.1 ∧
    ((InitializeSessionsManagerWithOptions lib opt s).trace.drop s.trace.length).countP
      Event.isNewSqliteStore = 1 ∧
    ((InitializeSessionsManagerWithOptions lib opt s).trace.drop s.trace.length).head? =
      some (Event.NewSqliteStore opt.SqliteDatabaseFilename "sessions" (sessionsOptionsOf opt)
        opt.SecretKey
        (lib.NewSqliteStore s.world opt.SqliteDatabaseFilename "sessions"
          (sessionsOptionsOf opt) opt.SecretKey).1) ∧
    ((lib.NewSqliteStore s.world opt.SqliteDatabaseFilename "sessions"
        (sessionsOptionsOf opt) opt.SecretKey).1.2 = none →
      (InitializeSessionsManagerWithOptions lib opt s).world =
        lib.StartCleanup
          (lib.NewSqliteStore s.world opt.SqliteDatabaseFilename "sessions"
            (sessionsOptionsOf opt) opt.SecretKey).2
          (lib.NewSqliteStore s.world opt.SqliteDatabaseFilename "sessions"
            (sessionsOptionsOf opt) opt.SecretKey).1.1
          opt.SessionCookieName opt.CleanupInterval ∧
      (InitializeSessionsManagerWithOptions lib opt s).trace =
        s.trace ++
          [Event.NewSqliteStore opt.SqliteDatabaseFilename "sessions" (sessionsOptionsOf opt)
            opt.SecretKey
            (lib.NewSqliteStore s.world opt.SqliteDatabaseFilename "sessions"
              (sessionsOptionsOf opt) opt.SecretKey).1,
          Event.StartCleanup
            (lib.NewSqliteStore s.world opt.SqliteDatabaseFilename "sessions"
              (sessionsOptionsOf opt) opt.SecretKey).1.1
            opt.SessionCookieName opt.CleanupInterval]) := by
  unfold InitializeSessionsManagerWithOptions
  refine ⟨?_, ?_, ?_, ?_, ?_⟩
  · rw [createSqliteStore_options]
  · rw [createSqliteStore_sessionsStore]
  · exact createSqliteStore_new_ctor_count lib { s with options := opt }
  · rw [createSqliteStore_trace, List.append_assoc, List.append_assoc]
    exact (congrArg List.head? (List.drop_left s.trace _)).trans rfl
  · intro hok
    refine ⟨createSqliteStore_world lib _, ?_⟩
    rw [createSqliteStore_trace]
    simp only [hok, logOf, List.append_nil, List.append_assoc, List.singleton_append]

/-- C6 at a configuration with an empty key, max-age -1 and cleanup interval
0: the constructor of the recording library returns a nil error, and the
calls the library received are the constructor call with these values and the
cleanup with interval 0. -/
theorem InitializeSessionsManagerWithOptions_no_validation_witness :
    (recordingLib.NewSqliteStore recordingFresh.world optUnvalidated.SqliteDatabaseFilename
        "sessions" (sessionsOptionsOf optUnvalidated) optUnvalidated.SecretKey).1.2 = none ∧
    (InitializeSessionsManagerWithOptions recordingLib optUnvalidated recordingFresh).world =
      recordingLib.StartCleanup
        (recordingLib.NewSqliteStore recordingFresh.world
          optUnvalidated.SqliteDatabaseFilename "sessions"
          (sessionsOptionsOf optUnvalidated) optUnvalidated.SecretKey).2
        (recordingLib.NewSqliteStore recordingFresh.world
          optUnvalidated.SqliteDatabaseFilename "sessions"
          (sessionsOptionsOf optUnvalidated) optUnvalidated.SecretKey).1.1
        optUnvalidated.SessionCookieName optUnvalidated.CleanupInterval ∧
    recordingLib.StartCleanup
        (recordingLib.NewSqliteStore recordingFresh.world
          optUnvalidated.SqliteDatabaseFilename "sessions"
          (sessionsOptionsOf optUnvalidated) optUnvalidated.SecretKey).2
        (recordingLib.NewSqliteStore recordingFresh.world
          optUnvalidated.SqliteDatabaseFilename "sessions"
          (sessionsOptionsOf optUnvalidated) optUnvalidated.SecretKey).1.1
        optUnvalidated.SessionCookieName optUnvalidated.CleanupInterval =
      [DemoCall.opened "./sessions.sqlite" "sessions"
          { Path := "/", MaxAge := -1, Domain := "", Secure := false, HttpOnly := true,
            SameSite := 0 }
          [],
        DemoCall.cleanup (some "./sessions.sqlite") "session-id" 0] :=
  ⟨by decide,
    ((InitializeSessionsManagerWithOptions_no_validation recordingLib optUnvalidated
      recordingFresh).2.2.2.2 (by decide)).1,
    by decide⟩

/-- C6, refuted as stated: a configuration with an empty key, max-age -1 and
cleanup interval 0 is not rejected; the store is constructed and the cleanup is
started with interval 0. -/
theorem InitializeSessionsManagerWithOptions_accepts_invalid :
    optUnvalidated.SecretKey = [] ∧ optUnvalidated.MaxAge < 0 ∧
    optUnvalidated.CleanupInterval ≤ 0 ∧
    (InitializeSessionsManagerWithOptions demoLib optUnvalidated demoFresh).sessionsStore =
      some "./sessions.sqlite" ∧
    (InitializeSessionsManagerWithOptions demoLib optUnvalidated demoFresh).trace =
      [Event.NewSqliteStore "./sessions.sqlite" "sessions"
          { Path := "/", MaxAge := -1, Domain := "", Secure := false, HttpOnly := true,
            SameSite := 0 }
          [] (some "./sessions.sqlite", none),
        Event.StartCleanup (some "./sessions.sqlite") "session-id" 0] := by
  decide

/-- C7: `DeleteFromDatabaseSessionWithID` calls the store's delete-by-ID once,
on the current handle and with the ID it was given, returns exactly what that
call returned (nil exactly when the store returned nil, the store's error
otherwise) and leaves `options` and `sessionsStore` unchanged. -/
theorem DeleteFromDatabaseSessionWithID_forwards
    (lib : StoreLib W Store Session Request Writer Callback Err) (sessionID : String)
    (s : State W Store Session Request Writer Callback Err) :
    (DeleteFromDatabaseSessionWithID lib sessionID s).1 =
      (lib.DeleteFromDatabaseSessionWithID s.world s.sessionsStore sessionID).1 ∧
    ((DeleteFromDatabaseSessionWithID lib sessionID s).1 = none ↔
      (lib.DeleteFromDatabaseSessionWithID s.world s.sessionsStore sessionID).1 = none) ∧
    (∀ e : Err,
      (lib.DeleteFromDatabaseSessionWithID s.world s.sessionsStore sessionID).1 = some e →
        (DeleteFromDatabaseSessionWithID lib sessionID s).1 = some e) ∧
    (DeleteFromDatabaseSessionWithID lib sessionID s).2.trace =
      s.trace ++ [Event.DeleteFromDatabaseSessionWithID s.sessionsStore sessionID] ∧
    ((DeleteFromDatabaseSessionWithID lib sessionID s).2.trace.drop s.trace.length).countP
      Event.isDeleteFromDatabaseSessionWithID = 1 ∧
    (DeleteFromDatabaseSessionWithID lib sessionID s).2.world =
      (lib.DeleteFromDatabaseSessionWithID s.world s.sessionsStore sessionID).2 ∧
    (DeleteFromDatabaseSessionWithID lib sessionID s).2.options = s.options ∧
    (DeleteFromDatabaseSessionWithID lib sessionID s).2.sessionsStore = s.sessionsStore :=
  ⟨rfl, Iff.rfl, fun _ h => h, rfl,
    by simp [DeleteFromDatabaseSessionWithID, Event.isDeleteFromDatabaseSessionWithID],
    rfl, rfl, rfl⟩

/-- C8, as the code has it: through the exported functions alone the store
always matches the configuration.  In every state reached from a fresh process
by calls of the exported functions, the store handle is the one the most
recent constructor call returned, and that call was made on the values of the
current `options`; `GetSession`, `DeleteSession`,
`DeleteFromDatabaseSessionWithID` and `SetExpiredSessionPreDeleteCallback`
leave `options` and `sessionsStore` unchanged; each initialiser makes one
constructor call, on the configuration it leaves in `options`, and installs
the handle that call returned (and, when the call returned a nil error, leaves
the constructor's world after one `StartCleanup` on that handle). -/
theorem store_built_from_current_options
    (lib : StoreLib W Store Session Request Writer Callback Err) :
    (∀ (w : W) (ops : List (Op Session Request Writer Callback)),
      StoreBuiltFromOptions lib (run lib ops (State.fresh w))) ∧
    (∀ (s : State W Store Session Request Writer Callback Err) (resWriter : Writer)
        (request : Request),
      (GetSession lib resWriter request s).2.options = s.options ∧
      (GetSession lib resWriter request s).2.sessionsStore = s.sessionsStore) ∧
    (∀ (s : State W Store Session Request Writer Callback Err) (resWriter : Writer)
        (request : Request) (session : Option Session),
      (DeleteSession lib resWriter request session s).options = s.options ∧
      (DeleteSession lib resWriter request session s).sessionsStore = s.sessionsStore) ∧
    (∀ (s : State W Store Session Request Writer Callback Err) (sessionID : String),
      (DeleteFromDatabaseSessionWithID lib sessionID s).2.options = s.options ∧
      (DeleteFromDatabaseSessionWithID lib sessionID s).2.sessionsStore = s.sessionsStore) ∧
    (∀ (s : State W Store Session Request Writer Callback Err) (callback : Callback),
      (SetExpiredSessionPreDeleteCallback lib callback s).options = s.options ∧
      (SetExpiredSessionPreDeleteCallback lib callback s).sessionsStore = s.sessionsStore) ∧
    (∀ s : State W Store Session Request Writer Callback Err,
      BuildsStoreFrom lib s (InitializeSessionsManager lib s) ∧
      StoreBuiltFromOptions lib (InitializeSessionsManager lib s)) ∧
    (∀ (s : State W Store Session Request Writer Callback Err) (opt : Options),
      (InitializeSessionsManagerWithOptions lib opt s).options = opt ∧
      BuildsStoreFrom lib s (InitializeSessionsManagerWithOptions lib opt s) ∧
      StoreBuiltFromOptions lib (InitializeSessionsManagerWithOptions lib opt s)) := by
  refine ⟨?_, ?_, ?_, ?_, ?_, ?_, ?_⟩
  · intro w ops
    exact run_storeBuiltFromOptions lib ops _ rfl
  · intro s resWriter request
    rw [GetSession_state]
    exact ⟨rfl, rfl⟩
  · intro s resWriter request session
    exact ⟨rfl, rfl⟩
  · intro s sessionID
    exact ⟨rfl, rfl⟩
  · intro s callback
    exact ⟨rfl, rfl⟩
  · intro s
    exact ⟨buildsStoreFrom_createSqliteStore lib
        { s with
          options :=
            { s.options with
              Path := "/"
              HttpOnly := true
              Secure := false
              MaxAge := 3600
              SessionCookieName := "session-id"
              SqliteDatabaseFilename := "./sessions.sqlite"
              SecretKey := bytesOf "super-secret-key"
              CleanupInterval := Minute * 5 } },
      storeBuiltFromOptions_createSqliteStore lib _⟩
  · intro s opt
    exact ⟨createSqliteStore_options lib { s with options := opt },
      buildsStoreFrom_createSqliteStore lib { s with options := opt },
      storeBuiltFromOptions_createSqliteStore lib _⟩

/-- C8 at `InitializeSessionsManagerWithOptions(optWithDomain)` in a fresh
process on the recording library: the constructor returns a nil error, and the
calls the library received are one constructor call on the values of
`optWithDomain` and one cleanup on the returned handle. -/
theorem store_built_from_current_options_witness :
    (recordingLib.NewSqliteStore recordingFresh.world optWithDomain.SqliteDatabaseFilename
        "sessions" (sessionsOptionsOf optWithDomain) optWithDomain.SecretKey).1.2 = none ∧
    (InitializeSessionsManagerWithOptions recordingLib optWithDomain recordingFresh).world =
      [DemoCall.opened "./sessions.sqlite" "sessions"
          { Path := "/app", MaxAge := 60, Domain := "example.com", Secure := true,
            HttpOnly := true, SameSite := 3 }
          (bytesOf "0123456789abcdef0123456789abcdef"),
        DemoCall.cleanup (some "./sessions.sqlite") "sid" 60000000000] :=
  ⟨by decide,
    (((store_built_from_current_options recordingLib).2.2.2.2.2.2 recordingFresh
      optWithDomain).2.1.2.2.2 (by decide)).trans (by decide)⟩

/-- C8, refuted as stated: after `InitializeSessionsManagerWithOptions` has
built the store, a write by the caller to the first byte of the key slice it
passed changes `options.SecretKey`, while the store handle and the trace stay
as they were (no store is constructed); the key the store was constructed
from is then no longer the current `options.SecretKey`. -/
theorem caller_write_changes_SecretKey_after_store_creation :
    StoreBuiltFromOptions demoLib demoConfigured ∧
    (callerWritesSecretKey 0 88 demoConfigured).options.SecretKey ≠
      demoConfigured.options.SecretKey ∧
    (callerWritesSecretKey 0 88 demoConfigured).sessionsStore = demoConfigured.sessionsStore ∧
    (callerWritesSecretKey 0 88 demoConfigured).trace = demoConfigured.trace ∧
    ¬ StoreBuiltFromOptions demoLib (callerWritesSecretKey 0 88 demoConfigured) := by
  refine ⟨storeBuiltFromOptions_createSqliteStore demoLib { demoFresh with options := optWithDomain },
    by decide, rfl, rfl, ?_⟩
  intro h
  unfold StoreBuiltFromOptions at h
  have hl : lastCtor (callerWritesSecretKey 0 88 demoConfigured).trace =
      some ⟨"./sessions.sqlite", "sessions", sessionsOptionsOf optWithDomain,
        bytesOf "0123456789abcdef0123456789abcdef", (some "./sessions.sqlite", none)⟩ := by
    decide
  rw [hl] at h
  exact absurd h.2.2.2.1 (by decide)

/-- C9, the code after a configuration that set `Domain` and `SameSite`:
`InitializeSessionsManager` keeps "example.com" and 3 and passes them to the
constructor, whereas in a fresh process it leaves "" and 0. -/
theorem InitializeSessionsManager_keeps_Domain_and_SameSite :
    (InitializeSessionsManager demoLib
        (InitializeSessionsManagerWithOptions demoLib optWithDomain demoFresh)).options.Domain
      = "example.com" ∧
    (InitializeSessionsManager demoLib
        (InitializeSessionsManagerWithOptions demoLib optWithDomain demoFresh)).options.SameSite
      = 3 ∧
    (InitializeSessionsManager demoLib demoFresh).options.Domain = "" ∧
    (InitializeSessionsManager demoLib demoFresh).options.SameSite = 0 ∧
    lastCtor (InitializeSessionsManager demoLib
        (InitializeSessionsManagerWithOptions demoLib optWithDomain demoFresh)).trace =
      some ⟨"./sessions.sqlite", "sessions",
        { Path := "/", MaxAge := 3600, Domain := "example.com", Secure := false,
          HttpOnly := true, SameSite := 3 },
        bytesOf "super-secret-key", (some "./sessions.sqlite", none)⟩ ∧
    lastCtor (InitializeSessionsManager demoLib demoFresh).trace =
      some ⟨"./sessions.sqlite", "sessions",
        { Path := "/", MaxAge := 3600, Domain := "", Secure := false,
          HttpOnly := true, SameSite := 0 },
        bytesOf "super-secret-key", (some "./sessions.sqlite", none)⟩ := by
  decide

/-- C10: `GetSession` calls the store's `Get` once, on the current handle, with
the request and the configured cookie name; when the store's error is non-nil
it returns a nil session and that error, otherwise the store's session and a
nil error; so, if the store returns a non-nil session whenever its error is
nil, the returned session is nil exactly when the returned error is non-nil. -/
theorem GetSession_maps_store_result
    (lib : StoreLib W Store Session Request Writer Callback Err)
    (resWriter : Writer) (request : Request)
    (s : State W Store Session Request Writer Callback Err) :
    (GetSession lib resWriter request s).2.trace =
      s.trace ++ [Event.Get s.sessionsStore request s.options.SessionCookieName] ∧
    ((GetSession lib resWriter request s).2.trace.drop s.trace.length).countP Event.isGet
      = 1 ∧
    (GetSession lib resWriter request s).2.world =
      (lib.Get s.world s.sessionsStore request s.options.SessionCookieName).2 ∧
    (∀ e : Err,
      (lib.Get s.world s.sessionsStore request s.options.SessionCookieName).1.2 = some e →
        (GetSession lib resWriter request s).1 = (none, some e)) ∧
    ((lib.Get s.world s.sessionsStore request s.options.SessionCookieName).1.2 = none →
      (GetSession lib resWriter request s).1 =
        ((lib.Get s.world s.sessionsStore request s.options.SessionCookieName).1.1, none)) ∧
    (((lib.Get s.world s.sessionsStore request s.options.SessionCookieName).1.2 = none →
        (lib.Get s.world s.sessionsStore request s.options.SessionCookieName).1.1 ≠ none) →
      ((GetSession lib resWriter request s).1.1 = none ↔
        (GetSession lib resWriter request s).1.2 ≠ none)) := by
  rw [GetSession_state, GetSession_result]
  refine ⟨rfl, by simp [Event.isGet], rfl, ?_, ?_, ?_⟩
  · intro e he
    rw [he]
  · intro he
    rw [he]
  · intro hstore
    cases he : (lib.Get s.world s.sessionsStore request s.options.SessionCookieName).1.2
    · simpa using hstore he
    · simp

/-- C10 at a request without a cookie, after the default initialisation: the
store returns a new session and a nil error, and so does `GetSession`. -/
theorem GetSession_maps_store_result_witness :
    ((demoLib.Get demoReady.world demoReady.sessionsStore none
        demoReady.options.SessionCookieName).1.2 = none →
      (demoLib.Get demoReady.world demoReady.sessionsStore none
        demoReady.options.SessionCookieName).1.1 ≠ none) ∧
    ((GetSession demoLib () none demoReady).1.1 = none ↔
      (GetSession demoLib () none demoReady).1.2 ≠ none) :=
  ⟨by decide, (GetSession_maps_store_result demoLib () none demoReady).2.2.2.2.2 (by decide)⟩

end Claims

end Gosqlitesessions
